import Mathlib

/-!
Shallow embedding of `scripts/seed_student_responses.py` (ClassPulse test-data
seeder) and proofs about its specified behaviour.

Modelling conventions:
* Python strings are Lean `String`; the relevant operations (`rstrip("/")`,
  `strip()`, slicing, `" ".join`) are implemented on the character list.
* The ambient random source is modelled by two explicit streams: a stream of
  natural numbers `σ : Nat → Nat` feeding every `random.choice` call site
  (a choice over a sequence of length `n` uses the stream value modulo `n`),
  and a stream of rationals `ρ : Nat → Rat` feeding `random.random()` calls.
  Each call consumes one stream position, in program order.
* The backend collaborator is pure data (`Backend`): the HTTP status and JSON
  payload of the session lookup, of the session creation, and the outcome of
  each submit call, indexed by iteration.
* A run is an event trace: printed lines, HTTP calls by call site, and sleeps,
  together with an exit result.  The rejection-sampling redraw loop for names
  is given explicit fuel; a run that would spin forever is `none`.
-/

/-- `FIRST_NAMES` pool from the script (30 entries). -/
def FIRST_NAMES : List String :=
  ["Alex", "Jordan", "Taylor", "Morgan", "Casey", "Riley", "Avery", "Quinn",
   "Sam", "Jamie", "Drew", "Blake", "Cameron", "Skyler", "Reese", "Parker",
   "Emma", "Liam", "Olivia", "Noah", "Ava", "Ethan", "Sophia", "Mason",
   "Isabella", "William", "Mia", "James", "Charlotte", "Benjamin"]

/-- `LAST_NAMES` pool from the script (20 entries). -/
def LAST_NAMES : List String :=
  ["Smith", "Johnson", "Williams", "Brown", "Jones", "Garcia", "Miller",
   "Davis", "Rodriguez", "Martinez", "Wilson", "Anderson", "Taylor",
   "Thomas", "Moore", "Jackson", "Martin", "Lee", "Thompson", "White"]

/-- `ANSWER_STARTERS` pool from the script (10 entries). -/
def ANSWER_STARTERS : List String :=
  ["I think that",
   "In my opinion,",
   "From what I\x27ve learned,",
   "Based on my experience,",
   "I believe",
   "It seems to me that",
   "I would say that",
   "One thing I\x27ve noticed is",
   "Personally, I feel",
   "I\x27ve found that"]

/-- `ANSWER_BODIES` pool from the script (15 entries, none empty). -/
def ANSWER_BODIES : List String :=
  ["the key is to consider multiple perspectives and stay open-minded.",
   "we need to balance theory with practical application.",
   "collaboration and communication are essential for success.",
   "it helps to break things down into smaller, manageable steps.",
   "understanding the fundamentals makes everything else easier.",
   "there\x27s often more than one right approach to a problem.",
   "feedback and iteration lead to better outcomes.",
   "context matters a lot—what works in one situation may not in another.",
   "we should question assumptions and look for evidence.",
   "connecting ideas across different areas can lead to new insights.",
   "practice and repetition build confidence over time.",
   "asking questions is just as important as having answers.",
   "diversity of thought strengthens the overall result.",
   "we need to be mindful of unintended consequences.",
   "simplicity often beats complexity when possible."]

/-- `ANSWER_CLOSERS` pool from the script (7 entries, 3 of them empty). -/
def ANSWER_CLOSERS : List String :=
  ["That\x27s my take on it.",
   "Would love to hear others\x27 thoughts.",
   "Curious what the rest of the class thinks.",
   "Hope this adds to the discussion.",
   "", "", ""]

/-- The three referential phrases of `random_answer`. -/
def REFS : List String :=
  ["Regarding this, ", "On this topic, ", "For this question, "]

/-- Model of `random.choice(xs)`: the caller supplies a stream value `i`,
and the uniformly drawn index is `i % xs.length`.  The pools used in the
script are all non-empty, so the `getD` default is never reached. -/
def pyChoice (xs : List String) (i : Nat) : String :=
  xs.getD (i % xs.length) ""

/-- Whitespace characters removed by Python `str.strip()` (ASCII range,
which covers every string the script builds). -/
def isPySpace (c : Char) : Bool :=
  c == ' ' || c == '\t' || c == '\n' || c == '\r' || c == '\x0b' || c == '\x0c'

/-- Model of Python `s.strip()`. -/
def pyStrip (s : String) : String :=
  ⟨((s.data.dropWhile isPySpace).reverse.dropWhile isPySpace).reverse⟩

/-- Model of Python `"/".rstrip` applied to a URL: `s.rstrip("/")` removes
every trailing slash. -/
def pyRstripSlash (s : String) : String :=
  ⟨(s.data.reverse.dropWhile (fun c => c == '/')).reverse⟩

/-- Model of Python slicing `s[:n]` (all characters here are one code point). -/
def pySlice (s : String) (n : Nat) : String :=
  ⟨s.data.take n⟩

/-- Model of Python `" ".join(parts)`. -/
def pyJoinSpace : List String → String
  | [] => ""
  | [s] => s
  | s :: rest => s ++ " " ++ pyJoinSpace rest

/-- `" ".join(p for p in parts if p).strip()` from `random_answer`. -/
def joinStrip (parts : List String) : String :=
  pyStrip (pyJoinSpace (parts.filter (fun p => p != "")))

/-- `answer[0].lower() + answer[1:]` from `random_answer`.  The script only
reaches this with a non-empty `answer` (Python would raise IndexError on an
empty string; the empty branch below is unreachable in `random_answer`). -/
def lcFirst (s : String) : String :=
  match s.data with
  | [] => ""
  | c :: cs => ⟨Char.toLower c :: cs⟩

/-- `random_student_name`: one draw from each name pool, joined by a space.
`i` and `j` are the two consumed stream values. -/
def random_student_name (i j : Nat) : String :=
  pyChoice FIRST_NAMES i ++ " " ++ pyChoice LAST_NAMES j

/-- `random_answer(question)`: starter, body and closer are drawn (stream
values `i`, `j`, `k`), the non-empty parts are joined and stripped; if
`question` is truthy and the `random.random()` draw `r` is below `0.3`, one
of the three referential phrases (stream value `l`) is prepended and the
first character of the composed text is lower-cased. -/
def random_answer (question : String) (i j k : Nat) (r : Rat) (l : Nat) : String :=
  let answer := joinStrip
    [pyChoice ANSWER_STARTERS i, pyChoice ANSWER_BODIES j, pyChoice ANSWER_CLOSERS k]
  if question ≠ "" ∧ r < 3/10 then
    pyChoice REFS l ++ lcFirst answer
  else
    answer

/-- Does a string begin with one of the three referential phrases? -/
def hasRefLead (s : String) : Bool :=
  REFS.any (fun ref => ref.data.isPrefixOf s.data)

/-- One observable step of a run: a printed line, an HTTP call (tagged by
call site: session lookup, session creation, response submission) or a
`time.sleep` pause. -/
inductive Event where
  | printLine (s : String)
  | getCall (url : String)
  | createCall (url : String)
  | submitCall (url : String)
  | sleep (d : Rat)
  deriving DecidableEq, Repr

/-- Python exceptions relevant to the script. -/
inductive PyExc where
  | httpStatusError (status : Nat)
  | keyError (key : String)
  deriving DecidableEq, Repr

/-- How the process ends: normal return, `sys.exit(n)`, or an uncaught
exception (which makes Python abort with a traceback). -/
inductive ExitResult where
  | normal
  | exitCode (n : Nat)
  | uncaught (e : PyExc)
  deriving DecidableEq, Repr

/-- Outcome of one `submit_response` call, as seen by the `try` block in
`main`: a 2xx response with a body, an `httpx.HTTPStatusError` raised by
`raise_for_status`, or any other exception (for example a transport error). -/
inductive SubmitOutcome where
  | ok (body : String)
  | httpError (status : Nat) (text : String)
  | exc (msg : String)
  deriving DecidableEq, Repr

/-- JSON payload of the create-session response.  Each field is `none` when
the key is absent from the payload; `d['k']` on an absent key raises
`KeyError`, `d.get('k', v)` falls back to `v`. -/
structure CreateData where
  session_id : Option String
  student_url : Option String
  admin_url : Option String
  admin_token : Option String
  deriving DecidableEq, Repr

/-- The backend collaborator, as pure data: status and question field of the
session-lookup response, status and payload of the create response, and the
outcome of the `i`-th submit call. -/
structure Backend where
  getStatus : Nat
  getQuestion : Option String
  createStatus : Nat
  createData : CreateData
  submit : Nat → SubmitOutcome

/-- The configuration surface of the script (the parsed command-line
arguments).  Defaults mirror `argparse`. -/
structure Config where
  baseUrl : String := "http://localhost:8000"
  frontendUrl : Option String := none
  sessionId : Option String := none
  question : String := "What is one key takeaway from today\x27s class?"
  count : Nat := 10
  delay : Rat := 1/2
  noDelay : Bool := false
  deriving Repr

/-- Python truthiness of a string. -/
def strTruthy (s : String) : Bool := s != ""

/-- Python truthiness of an optional string (`None` and `""` are falsy). -/
def optStrTruthy : Option String → Bool
  | none => false
  | some s => strTruthy s

/-- `f"{base_url}/api/sessions"`. -/
def sessionsUrl (base_url : String) : String := base_url ++ "/api/sessions"

/-- `f"{base_url}/api/sessions/{session_id}"`. -/
def sessionUrl (base_url session_id : String) : String :=
  base_url ++ "/api/sessions/" ++ session_id

/-- `f"{base_url}/api/sessions/{session_id}/responses"`. -/
def responsesUrl (base_url session_id : String) : String :=
  base_url ++ "/api/sessions/" ++ session_id ++ "/responses"

/-- `f"{frontend_url}/session/{session_id}/admin?token={admin_token}"`. -/
def adminLink (frontend_url session_id admin_token : String) : String :=
  frontend_url ++ "/session/" ++ session_id ++ "/admin?token=" ++ admin_token

/-- The templated placeholder link printed when no admin token is known. -/
def placeholderLink (frontend_url session_id : String) : String :=
  frontend_url ++ "/session/" ++ session_id ++ "/admin?token=<your-admin-token>"

/-- `base_url = args.base_url.rstrip("/")`. -/
def computedBase (cfg : Config) : String := pyRstripSlash cfg.baseUrl

/-- `frontend_url = (args.frontend_url or base_url).rstrip("/")`. -/
def computedFrontend (cfg : Config) : String :=
  pyRstripSlash (if optStrTruthy cfg.frontendUrl then cfg.frontendUrl.getD "" else computedBase cfg)

/-- `delay = 0 if args.no_delay else args.delay`. -/
def effectiveDelay (cfg : Config) : Rat :=
  if cfg.noDelay then 0 else cfg.delay

/-- `create_session`: POST to `/api/sessions`, `raise_for_status`, then print
the session id, the student URL and the admin link.  The admin link is the
formatted template when `frontend_url` is truthy — note that this branch
reads `data['admin_token']` directly and therefore raises `KeyError` when the
key is absent — and `data['admin_url']` otherwise.  Returns the events that
happened together with the payload or the raised exception. -/
def create_session (base_url question : String) (frontend_url : Option String)
    (b : Backend) : List Event × Except PyExc CreateData :=
  if 200 ≤ b.createStatus ∧ b.createStatus < 300 then
    match b.createData.session_id with
    | none => ([Event.createCall (sessionsUrl base_url)], .error (PyExc.keyError "session_id"))
    | some sid =>
      match b.createData.student_url with
      | none =>
        ([Event.createCall (sessionsUrl base_url),
          Event.printLine ("Created session: " ++ sid)],
         .error (PyExc.keyError "student_url"))
      | some su =>
        if optStrTruthy frontend_url then
          match b.createData.admin_token with
          | none =>
            ([Event.createCall (sessionsUrl base_url),
              Event.printLine ("Created session: " ++ sid),
              Event.printLine ("  Student URL: " ++ su)],
             .error (PyExc.keyError "admin_token"))
          | some tok =>
            ([Event.createCall (sessionsUrl base_url),
              Event.printLine ("Created session: " ++ sid),
              Event.printLine ("  Student URL: " ++ su),
              Event.printLine ("  Admin URL:   " ++ adminLink (frontend_url.getD "") sid tok)],
             .ok b.createData)
        else
          match b.createData.admin_url with
          | none =>
            ([Event.createCall (sessionsUrl base_url),
              Event.printLine ("Created session: " ++ sid),
              Event.printLine ("  Student URL: " ++ su)],
             .error (PyExc.keyError "admin_url"))
          | some au =>
            ([Event.createCall (sessionsUrl base_url),
              Event.printLine ("Created session: " ++ sid),
              Event.printLine ("  Student URL: " ++ su),
              Event.printLine ("  Admin URL:   " ++ au)],
             .ok b.createData)
  else
    ([Event.createCall (sessionsUrl base_url)], .error (PyExc.httpStatusError b.createStatus))

/-- The `name = random_student_name(); while name in used_names: ...` redraw
loop.  Each attempt consumes two values of the choice stream `σ` starting at
position `pos`; `fuel` bounds the number of attempts (the Python loop has no
bound and can spin forever).  Returns the fresh name and the next stream
position. -/
def drawFreshName (σ : Nat → Nat) (used : List String) : Nat → Nat → Option (String × Nat)
  | 0, _ => none
  | fuel + 1, pos =>
    if random_student_name (σ pos) (σ (pos + 1)) ∈ used then
      drawFreshName σ used fuel (pos + 2)
    else
      some (random_student_name (σ pos) (σ (pos + 1)), pos + 2)

/-- Per-iteration line printed by `main`: the success line echoes the name
and the first 50 characters of the answer; `httpx.HTTPStatusError` produces
the FAILED line; any other exception produces the ERROR line. -/
def okLine (count i : Nat) (name answer : String) : String :=
  "  [" ++ toString (i + 1) ++ "/" ++ toString count ++ "] " ++ name ++ ": "
    ++ pySlice answer 50 ++ "..."

/-- The `FAILED` line of a submit iteration. -/
def failedLine (count i status : Nat) (text : String) : String :=
  "  [" ++ toString (i + 1) ++ "/" ++ toString count ++ "] FAILED: "
    ++ toString status ++ " - " ++ text

/-- The `ERROR` line of a submit iteration. -/
def errorLine (count i : Nat) (msg : String) : String :=
  "  [" ++ toString (i + 1) ++ "/" ++ toString count ++ "] ERROR: " ++ msg

/-- Line printed for iteration `i`, by submit outcome. -/
def iterLine (count i : Nat) (name answer : String) : SubmitOutcome → String
  | SubmitOutcome.ok _ => okLine count i name answer
  | SubmitOutcome.httpError s t => failedLine count i s t
  | SubmitOutcome.exc m => errorLine count i m

/-- The submission loop of `main` (lines 215-231), over the remaining
iteration indices `is`.  State: `npos`/`fpos` are the next positions of the
choice and float streams, `used` the used-names set (most recent first).
Per iteration: draw a fresh name, synthesize the answer (three choice draws;
one float draw only when `question` is truthy; one further choice draw only
when the referential branch is taken), submit, print the outcome line, and
sleep when `delay` is truthy and this is not the last iteration.  Returns
the events of these iterations and the final used-names set, or `none` when
the redraw loop runs out of fuel. -/
def seedLoop (b : Backend) (σ : Nat → Nat) (ρ : Nat → Rat)
    (base_url session_id question : String) (count : Nat) (delay : Rat)
    (fuel : Nat) :
    List Nat → Nat → Nat → List String → Option (List Event × List String)
  | [], _, _, used => some ([], used)
  | i :: rest, npos, fpos, used =>
    match drawFreshName σ used fuel npos with
    | none => none
    | some (name, npos1) =>
      match seedLoop b σ ρ base_url session_id question count delay fuel rest
          (if question ≠ "" ∧ ρ fpos < 3/10 then npos1 + 4 else npos1 + 3)
          (if question ≠ "" then fpos + 1 else fpos)
          (name :: used) with
      | none => none
      | some (evRest, usedFinal) =>
        some (([Event.submitCall (responsesUrl base_url session_id),
                Event.printLine (iterLine count i name
                  (random_answer question (σ npos1) (σ (npos1 + 1)) (σ (npos1 + 2))
                    (ρ fpos) (σ (npos1 + 3)))
                  (b.submit i))] ++
               (if delay ≠ 0 ∧ i + 1 < count then [Event.sleep delay] else [])) ++ evRest,
              usedFinal)

/-- The header line printed before the loop. -/
def headerLine (count : Nat) : String :=
  "\nSubmitting " ++ toString count ++ " fake student responses..."

/-- The first line of the final summary. -/
def doneLine : String :=
  "\nDone! Open the admin dashboard to see the summarized themes."

/-- Everything `main` does from the `Submitting ...` header onwards: run the
submission loop and print the final summary (the `Done!` line plus either
the admin link or the templated placeholder). -/
def runSubmissions (b : Backend) (σ : Nat → Nat) (ρ : Nat → Rat)
    (base_url frontend_url session_id question : String)
    (admin_url : Option String) (count : Nat) (delay : Rat) (fuel : Nat)
    (evPre : List Event) : Option (List Event × ExitResult) :=
  match seedLoop b σ ρ base_url session_id question count delay fuel
      (List.range count) 0 0 [] with
  | none => none
  | some (evLoop, _) =>
    some (evPre ++ [Event.printLine (headerLine count)] ++ evLoop
            ++ [Event.printLine doneLine,
                Event.printLine ("  " ++ admin_url.getD (placeholderLink frontend_url session_id))],
          ExitResult.normal)

/-- The create-path session resolution in `main` (lines 204-209): call
`create_session`, read `data["session_id"]` again, and compute `admin_url`
from `data.get("admin_token", "")` when that token is truthy. -/
def resolveCreate (cfg : Config) (b : Backend) :
    List Event × Except PyExc (String × Option String) :=
  let frontend_url := computedFrontend cfg
  let p := create_session (computedBase cfg) cfg.question (some frontend_url) b
  match p.2 with
  | .error e => (p.1, .error e)
  | .ok data =>
    match data.session_id with
    | none => (p.1, .error (PyExc.keyError "session_id"))
    | some session_id =>
      (p.1, .ok (session_id,
        if strTruthy (data.admin_token.getD "") then
          some (adminLink frontend_url session_id (data.admin_token.getD ""))
        else none))

/-- The `main` function as an event-trace producer.  `σ`/`ρ` are the random
streams, `fuel` bounds each rejection-sampling redraw loop.  `none` models a
run whose redraw loop never finds an unused name within `fuel` attempts. -/
def mainRun (cfg : Config) (b : Backend) (σ : Nat → Nat) (ρ : Nat → Rat)
    (fuel : Nat) : Option (List Event × ExitResult) :=
  let base_url := computedBase cfg
  let frontend_url := computedFrontend cfg
  let delay := effectiveDelay cfg
  if optStrTruthy cfg.sessionId then
    let session_id := cfg.sessionId.getD ""
    if 200 ≤ b.getStatus ∧ b.getStatus < 300 then
      let question := b.getQuestion.getD ""
      runSubmissions b σ ρ base_url frontend_url session_id question none
        cfg.count delay fuel
        [Event.getCall (sessionUrl base_url session_id),
         Event.printLine ("Using existing session: " ++ session_id),
         Event.printLine ("  Question: " ++ pySlice question 60
           ++ (if question.length > 60 then "..." else ""))]
    else
      some ([Event.getCall (sessionUrl base_url session_id),
             Event.printLine ("Error: Session " ++ session_id ++ " not found ("
               ++ toString b.getStatus ++ ")")],
            ExitResult.exitCode 1)
  else
    let p := resolveCreate cfg b
    match p.2 with
    | .error e => some (p.1, ExitResult.uncaught e)
    | .ok (session_id, admin_url) =>
      runSubmissions b σ ρ base_url frontend_url session_id cfg.question admin_url
        cfg.count delay fuel p.1

/-- Is an event a response-submission HTTP call? -/
def isSubmitEv : Event → Bool
  | Event.submitCall _ => true
  | _ => false

/-- Is an event a pacing pause? -/
def isSleepEv : Event → Bool
  | Event.sleep _ => true
  | _ => false

/-! Concrete runs used by witnesses and counterexamples.  The choice stream
`fun n => n` and float stream `fun _ => 1` make every run deterministic. -/

/-- Backend whose submissions all raise a generic exception. -/
def w1b : Backend :=
  ⟨200, none, 200, ⟨none, none, none, none⟩, fun _ => SubmitOutcome.exc "x"⟩

/-- A concrete two-iteration submission loop. -/
def w1run : Option (List Event × List String) :=
  seedLoop w1b (fun n => n) (fun _ => 1) "b" "s" "" 2 0 1 (List.range 2) 0 0 []

/-- The used-names set produced by `w1run`. -/
def w1used : List String := (w1run.getD ([], [])).2

/-- Reuse-path configuration pointing at an unknown session. -/
def w2cfg : Config := { baseUrl := "http://x", sessionId := some "abc", count := 3 }

/-- Backend whose session lookup returns 404. -/
def w2b : Backend :=
  ⟨404, none, 200, ⟨none, none, none, none⟩, fun _ => SubmitOutcome.ok "r"⟩

/-- Reuse-path configuration for two submissions without pacing. -/
def w3cfg : Config := { baseUrl := "http://x", sessionId := some "s", count := 2, delay := 0 }

/-- Backend where submission 0 gets a 500 and submission 1 a transport error. -/
def w3b : Backend :=
  ⟨200, none, 200, ⟨none, none, none, none⟩,
   fun i => if i == 0 then SubmitOutcome.httpError 500 "x" else SubmitOutcome.exc "y"⟩

/-- The `w3cfg`/`w3b` run. -/
def w3run : Option (List Event × ExitResult) :=
  mainRun w3cfg w3b (fun n => n) (fun _ => 1) 1

/-- Events of `w3run`. -/
def w3ev : List Event := (w3run.getD ([], ExitResult.exitCode 9)).1

/-- Create-path configuration with an explicit frontend URL. -/
def w5cfg : Config :=
  { baseUrl := "http://x", frontendUrl := some "http://f", sessionId := none,
    question := "Q", count := 1, delay := 0 }

/-- Backend whose create response has all four fields. -/
def w5b : Backend :=
  ⟨200, none, 200, ⟨some "abc", some "su", some "au", some "t"⟩,
   fun _ => SubmitOutcome.ok "r"⟩

/-- The `w5cfg`/`w5b` run. -/
def w5run : Option (List Event × ExitResult) :=
  mainRun w5cfg w5b (fun n => n) (fun _ => 1) 1

/-- Events of `w5run`. -/
def w5ev : List Event := (w5run.getD ([], ExitResult.exitCode 9)).1

/-- Create-path configuration for the missing-admin-token input. -/
def c6cfg : Config :=
  { baseUrl := "http://x", sessionId := none, question := "Q", count := 1, delay := 0 }

/-- Backend whose create response lacks the `admin_token` key (the other
three keys are present). -/
def c6b : Backend :=
  ⟨200, none, 200, ⟨some "abc", some "http://x/j/abc", some "http://x/session/abc/admin", none⟩,
   fun _ => SubmitOutcome.ok "r"⟩

/-- Reuse-path configuration with `noDelay` set and a nonzero `delay`. -/
def w7acfg : Config :=
  { baseUrl := "http://x", sessionId := some "s", count := 2, delay := 5, noDelay := true }

/-- Reuse-path configuration with pacing delay 1. -/
def w7bcfg : Config :=
  { baseUrl := "http://x", sessionId := some "s", count := 2, delay := 1, noDelay := false }

/-- Backend whose submissions all succeed. -/
def w7back : Backend :=
  ⟨200, none, 200, ⟨none, none, none, none⟩, fun _ => SubmitOutcome.ok "r"⟩

/-- The `w7acfg` run. -/
def w7arun : Option (List Event × ExitResult) :=
  mainRun w7acfg w7back (fun n => n) (fun _ => 1) 1

/-- Events of `w7arun`. -/
def w7aev : List Event := (w7arun.getD ([], ExitResult.exitCode 9)).1

/-- The `w7bcfg` run. -/
def w7brun : Option (List Event × ExitResult) :=
  mainRun w7bcfg w7back (fun n => n) (fun _ => 1) 1

/-- Events of `w7brun`. -/
def w7bev : List Event := (w7brun.getD ([], ExitResult.exitCode 9)).1

/-- Reuse-path configuration with `count = 7` (its decimal representation is
the single character `7`). -/
def x9cfg : Config := { baseUrl := "http://x", sessionId := some "s", count := 7, delay := 0 }

/-- Backend where submission 3 gets a 500 response and the rest succeed. -/
def x9b : Backend :=
  ⟨200, none, 200, ⟨none, none, none, none⟩,
   fun i => if i == 3 then SubmitOutcome.httpError 500 "boom" else SubmitOutcome.ok "r"⟩

/-- The `x9cfg`/`x9b` run. -/
def x9run : Option (List Event × ExitResult) :=
  mainRun x9cfg x9b (fun n => n) (fun _ => 1) 1

/-- Events of `x9run`. -/
def x9ev : List Event := (x9run.getD ([], ExitResult.exitCode 9)).1

/-- Reuse-path configuration, two submissions. -/
def w9cfg : Config := { baseUrl := "http://x", sessionId := some "s", count := 2, delay := 0 }

/-- Backend where every submission fails with a 500. -/
def w9b : Backend :=
  ⟨200, none, 200, ⟨none, none, none, none⟩, fun _ => SubmitOutcome.httpError 500 "e"⟩

/-- The `w9cfg`/`w9b` run. -/
def w9run : Option (List Event × ExitResult) :=
  mainRun w9cfg w9b (fun n => n) (fun _ => 1) 1

/-- Events of `w9run`. -/
def w9ev : List Event := (w9run.getD ([], ExitResult.exitCode 9)).1

/-- Configuration with `frontendUrl` set to the empty string. -/
def x10a : Config :=
  { baseUrl := "http://x", frontendUrl := some "", sessionId := none,
    question := "Q", count := 1, delay := 0 }

/-- Configuration identical to `x10a` except that `frontendUrl` is `"/"`,
which differs from `""` only by a trailing slash. -/
def x10b : Config :=
  { baseUrl := "http://x", frontendUrl := some "/", sessionId := none,
    question := "Q", count := 1, delay := 0 }

theorem base_answer_props :
    ∀ st ∈ ANSWER_STARTERS, ∀ bo ∈ ANSWER_BODIES, ∀ cl ∈ ANSWER_CLOSERS,
      joinStrip [st, bo, cl] ≠ "" ∧ hasRefLead (joinStrip [st, bo, cl]) = false := by
  decide

/-- A string is empty exactly when its character list is. -/
theorem str_eq_empty_iff (s : String) : s = "" ↔ s.data = [] := by
  rw [String.ext_iff]

/-- Appending strings appends their character lists. -/
theorem str_data_append (a b : String) : (a ++ b).data = a.data ++ b.data := rfl

/-- A string append with a non-empty left part is non-empty. -/
theorem str_append_ne_empty (a b : String) (h : a ≠ "") : a ++ b ≠ "" := by
  intro hc
  rw [str_eq_empty_iff, str_data_append, List.append_eq_nil] at hc
  exact h (str_eq_empty_iff a |>.mpr hc.1)

/-- `pyChoice` always picks an element of a non-empty pool. -/
theorem pyChoice_mem (xs : List String) (i : Nat) (h : xs ≠ []) : pyChoice xs i ∈ xs := by
  have hlen : 0 < xs.length := List.length_pos.mpr h
  have hm : i % xs.length < xs.length := Nat.mod_lt _ hlen
  rw [pyChoice, List.getD_eq_getElem xs "" hm]
  exact List.getElem_mem hm

/-- A list is a `isPrefixOf` of itself followed by anything. -/
theorem isPrefixOf_self_append (l t : List Char) : l.isPrefixOf (l ++ t) = true := by
  rw [List.isPrefixOf_iff_prefix]
  exact List.prefix_append l t

/-- The redraw loop only ever returns a name outside the used set. -/
theorem drawFreshName_not_mem (σ : Nat → Nat) (used : List String) :
    ∀ fuel pos name pos', drawFreshName σ used fuel pos = some (name, pos') → name ∉ used := by
  intro fuel
  induction fuel with
  | zero => intro pos name pos' h; simp [drawFreshName] at h
  | succ n ih =>
    intro pos name pos' h
    simp only [drawFreshName] at h
    by_cases hm : random_student_name (σ pos) (σ (pos + 1)) ∈ used
    · rw [if_pos hm] at h
      exact ih _ _ _ h
    · rw [if_neg hm] at h
      simp only [Option.some.injEq, Prod.mk.injEq] at h
      obtain ⟨h1, -⟩ := h
      subst h1
      exact hm

/-- The submission loop preserves distinctness of the used-names set: every
iteration adds a name that the redraw loop certified as unused. -/
theorem seedLoop_nodup (b : Backend) (σ : Nat → Nat) (ρ : Nat → Rat)
    (base sid q : String) (count : Nat) (delay : Rat) (fuel : Nat) :
    ∀ (is : List Nat) (npos fpos : Nat) (used : List String) (ev : List Event)
      (used' : List String),
      seedLoop b σ ρ base sid q count delay fuel is npos fpos used = some (ev, used') →
      used.Nodup → used'.Nodup := by
  intro is
  induction is with
  | nil =>
    intro npos fpos used ev used' h hn
    simp only [seedLoop, Option.some.injEq, Prod.mk.injEq] at h
    obtain ⟨-, h2⟩ := h
    subst h2
    exact hn
  | cons i rest ih =>
    intro npos fpos used ev used' h hn
    simp only [seedLoop] at h
    split at h
    · exact absurd h (by simp)
    · rename_i name npos1 hd
      split at h
      · exact absurd h (by simp)
      · rename_i evRest usedF hr
        simp only [Option.some.injEq, Prod.mk.injEq] at h
        obtain ⟨-, h2⟩ := h
        subst h2
        refine ih _ _ _ _ _ hr ?_
        rw [List.nodup_cons]
        exact ⟨drawFreshName_not_mem σ used fuel npos name npos1 hd, hn⟩

/-- Every iteration of the submission loop performs exactly one submit call,
whatever the submit outcomes are. -/
theorem seedLoop_submit_count (b : Backend) (σ : Nat → Nat) (ρ : Nat → Rat)
    (base sid q : String) (count : Nat) (delay : Rat) (fuel : Nat) :
    ∀ (is : List Nat) (npos fpos : Nat) (used : List String) (ev : List Event)
      (used' : List String),
      seedLoop b σ ρ base sid q count delay fuel is npos fpos used = some (ev, used') →
      ev.countP isSubmitEv = is.length := by
  intro is
  induction is with
  | nil =>
    intro npos fpos used ev used' h
    simp only [seedLoop, Option.some.injEq, Prod.mk.injEq] at h
    obtain ⟨h1, -⟩ := h
    subst h1
    rfl
  | cons i rest ih =>
    intro npos fpos used ev used' h
    simp only [seedLoop] at h
    split at h
    · exact absurd h (by simp)
    · rename_i name npos1 hd
      split at h
      · exact absurd h (by simp)
      · rename_i evRest usedF hr
        simp only [Option.some.injEq, Prod.mk.injEq] at h
        obtain ⟨h1, -⟩ := h
        subst h1
        have hrest := ih _ _ _ _ _ hr
        rw [List.countP_append, List.countP_append, hrest]
        have hsl : (if delay ≠ 0 ∧ i + 1 < count then [Event.sleep delay] else []).countP isSubmitEv = 0 := by
          split <;> simp [isSubmitEv, List.countP_cons]
        rw [hsl]
        simp [isSubmitEv, List.countP_cons, List.length_cons]
        omega

/-- With a zero effective delay the submission loop never sleeps. -/
theorem seedLoop_no_sleep (b : Backend) (σ : Nat → Nat) (ρ : Nat → Rat)
    (base sid q : String) (count : Nat) (fuel : Nat) :
    ∀ (is : List Nat) (npos fpos : Nat) (used : List String) (ev : List Event)
      (used' : List String),
      seedLoop b σ ρ base sid q count 0 fuel is npos fpos used = some (ev, used') →
      ev.countP isSleepEv = 0 := by
  intro is
  induction is with
  | nil =>
    intro npos fpos used ev used' h
    simp only [seedLoop, Option.some.injEq, Prod.mk.injEq] at h
    obtain ⟨h1, -⟩ := h
    subst h1
    rfl
  | cons i rest ih =>
    intro npos fpos used ev used' h
    simp only [seedLoop] at h
    split at h
    · exact absurd h (by simp)
    · rename_i name npos1 hd
      split at h
      · exact absurd h (by simp)
      · rename_i evRest usedF hr
        simp only [Option.some.injEq, Prod.mk.injEq] at h
        obtain ⟨h1, -⟩ := h
        subst h1
        have hrest := ih _ _ _ _ _ hr
        rw [List.countP_append, List.countP_append, hrest]
        simp [isSleepEv, List.countP_cons]

/-- With a truthy delay the submission loop sleeps exactly once per
iteration that is not the last one. -/
theorem seedLoop_sleep_count (b : Backend) (σ : Nat → Nat) (ρ : Nat → Rat)
    (base sid q : String) (count : Nat) (delay : Rat) (fuel : Nat)
    (hdelay : delay ≠ 0) :
    ∀ (is : List Nat) (npos fpos : Nat) (used : List String) (ev : List Event)
      (used' : List String),
      seedLoop b σ ρ base sid q count delay fuel is npos fpos used = some (ev, used') →
      ev.countP isSleepEv = is.countP (fun i => decide (i + 1 < count)) := by
  intro is
  induction is with
  | nil =>
    intro npos fpos used ev used' h
    simp only [seedLoop, Option.some.injEq, Prod.mk.injEq] at h
    obtain ⟨h1, -⟩ := h
    subst h1
    rfl
  | cons i rest ih =>
    intro npos fpos used ev used' h
    simp only [seedLoop] at h
    split at h
    · exact absurd h (by simp)
    · rename_i name npos1 hd
      split at h
      · exact absurd h (by simp)
      · rename_i evRest usedF hr
        simp only [Option.some.injEq, Prod.mk.injEq] at h
        obtain ⟨h1, -⟩ := h
        subst h1
        have hrest := ih _ _ _ _ _ hr
        rw [List.countP_append, List.countP_append, hrest, List.countP_cons]
        by_cases hi : i + 1 < count
        · have hif : (if delay ≠ 0 ∧ i + 1 < count then [Event.sleep delay] else [])
              = [Event.sleep delay] := by
            rw [if_pos]
            exact ⟨hdelay, hi⟩
          rw [hif]
          simp [isSleepEv, List.countP_cons, hi]
          omega
        · have hif : (if delay ≠ 0 ∧ i + 1 < count then [Event.sleep delay] else [])
              = [] := by
            rw [if_neg]
            tauto
          rw [hif]
          simp [isSleepEv, List.countP_cons, hi]

/-- Every iteration of the submission loop prints its outcome line: for the
name and answer generated in that iteration, the line determined by the
submit outcome of that iteration is among the loop events. -/
theorem seedLoop_line_mem (b : Backend) (σ : Nat → Nat) (ρ : Nat → Rat)
    (base sid q : String) (count : Nat) (delay : Rat) (fuel : Nat) :
    ∀ (is : List Nat) (npos fpos : Nat) (used : List String) (ev : List Event)
      (used' : List String),
      seedLoop b σ ρ base sid q count delay fuel is npos fpos used = some (ev, used') →
      ∀ i ∈ is, ∃ name answer,
        Event.printLine (iterLine count i name answer (b.submit i)) ∈ ev := by
  intro is
  induction is with
  | nil =>
    intro npos fpos used ev used' h i hi
    exact absurd hi (by simp)
  | cons j rest ih =>
    intro npos fpos used ev used' h i hi
    simp only [seedLoop] at h
    split at h
    · exact absurd h (by simp)
    · rename_i name npos1 hd
      split at h
      · exact absurd h (by simp)
      · rename_i evRest usedF hr
        simp only [Option.some.injEq, Prod.mk.injEq] at h
        obtain ⟨h1, -⟩ := h
        subst h1
        rcases List.mem_cons.mp hi with hij | hmem
        · subst hij
          refine ⟨name, random_answer q (σ npos1) (σ (npos1 + 1)) (σ (npos1 + 2))
            (ρ fpos) (σ (npos1 + 3)), ?_⟩
          simp [List.mem_append]
        · obtain ⟨nm, ans, hm⟩ := ih _ _ _ _ _ hr i hmem
          exact ⟨nm, ans, by simp [List.mem_append, hm]⟩

/-- In `List.range n`, all indices but the last one satisfy `i + 1 < n`. -/
theorem countP_range_not_last (n : Nat) :
    (List.range n).countP (fun i => decide (i + 1 < n)) = n - 1 := by
  cases n with
  | zero => rfl
  | succ m =>
    rw [List.range_succ, List.countP_append]
    have h1 : (List.range m).countP (fun i => decide (i + 1 < m + 1)) = (List.range m).length :=
      List.countP_eq_length.mpr (by
        intro a ha
        rw [List.mem_range] at ha
        simp
        omega)
    rw [h1, List.length_range]
    simp

/-- A successful `runSubmissions` result is always a normal exit whose trace
is the preamble, the header line, the loop events and the two summary
lines. -/
theorem runSubmissions_eq (b : Backend) (σ : Nat → Nat) (ρ : Nat → Rat)
    (base f sid q : String) (au : Option String) (count : Nat) (delay : Rat)
    (fuel : Nat) (evPre ev : List Event) (res : ExitResult)
    (h : runSubmissions b σ ρ base f sid q au count delay fuel evPre = some (ev, res)) :
    res = ExitResult.normal ∧
    ∃ evLoop used,
      seedLoop b σ ρ base sid q count delay fuel (List.range count) 0 0 [] =
        some (evLoop, used) ∧
      ev = evPre ++ [Event.printLine (headerLine count)] ++ evLoop
        ++ [Event.printLine doneLine,
            Event.printLine ("  " ++ au.getD (placeholderLink f sid))] := by
  simp only [runSubmissions] at h
  split at h
  · exact absurd h (by simp)
  · rename_i evLoop used hseed
    simp only [Option.some.injEq, Prod.mk.injEq] at h
    obtain ⟨hev, hres⟩ := h
    exact ⟨hres.symm, evLoop, used, hseed, hev.symm⟩

/-- The event trace of `create_session` is one create call followed only by
printed lines. -/
theorem create_session_events (base q : String) (f : Option String) (b : Backend) :
    ∃ strs : List String,
      (create_session base q f b).1 =
        Event.createCall (sessionsUrl base) :: strs.map Event.printLine := by
  unfold create_session
  repeat' split
  all_goals
    first
      | exact ⟨[], rfl⟩
      | exact ⟨[_], rfl⟩
      | exact ⟨[_, _], rfl⟩
      | exact ⟨[_, _, _], rfl⟩

/-- `create_session` makes no submit call and never sleeps: its trace counts
zero events for any predicate that rejects create calls and printed lines. -/
theorem create_session_countP (p : Event → Bool)
    (hc : ∀ u, p (Event.createCall u) = false)
    (hp : ∀ s, p (Event.printLine s) = false)
    (base q : String) (f : Option String) (b : Backend) :
    ((create_session base q f b).1).countP p = 0 := by
  obtain ⟨strs, hst⟩ := create_session_events base q f b
  rw [hst, List.countP_cons]
  rw [List.countP_map]
  have h0 : strs.countP (p ∘ Event.printLine) = 0 :=
    List.countP_eq_zero.mpr (fun a _ => by simp [Function.comp, hp])
  rw [h0]
  simp [hc]

/-- `resolveCreate` propagates the `create_session` trace unchanged. -/
theorem resolveCreate_events (cfg : Config) (b : Backend) :
    (resolveCreate cfg b).1 =
      (create_session (computedBase cfg) cfg.question (some (computedFrontend cfg)) b).1 := by
  unfold resolveCreate
  dsimp only
  repeat' split
  all_goals rfl

/-- When `resolveCreate` succeeds, the payload really was the backend create
payload, the returned id is its `session_id` field, and the admin URL is the
formatted admin link when the token is a truthy string. -/
theorem resolveCreate_ok (cfg : Config) (b : Backend) (sid' : String)
    (au : Option String) (evC : List Event)
    (h : resolveCreate cfg b = (evC, Except.ok (sid', au))) :
    b.createData.session_id = some sid' ∧
    au = (if strTruthy (b.createData.admin_token.getD "") then
            some (adminLink (computedFrontend cfg) sid' (b.createData.admin_token.getD ""))
          else none) := by
  unfold resolveCreate at h
  dsimp only at h
  split at h
  · exact absurd h (by simp)
  · rename_i data hok
    split at h
    · exact absurd h (by simp)
    · rename_i sid hsid
      simp only [Prod.mk.injEq, Except.ok.injEq] at h
      obtain ⟨-, h2, h3⟩ := h
      subst h2
      have hdata : data = b.createData := by
        revert hok
        unfold create_session
        repeat' split
        all_goals intro hok
        all_goals simpa using hok.symm
      subst hdata
      exact ⟨hsid, h3.symm⟩

/-- Any normally terminating run decomposes into a submission-free,
sleep-free preamble, the `Submitting ...` header, the loop events (produced
by `seedLoop` over `List.range count` with the effective delay), and the
two summary lines. -/
theorem mainRun_normal (cfg : Config) (b : Backend) (σ : Nat → Nat)
    (ρ : Nat → Rat) (fuel : Nat) (ev : List Event)
    (h : mainRun cfg b σ ρ fuel = some (ev, ExitResult.normal)) :
    ∃ (evPre : List Event) (sid q : String) (au : Option String)
      (evLoop : List Event) (used : List String),
      evPre.countP isSubmitEv = 0 ∧ evPre.countP isSleepEv = 0 ∧
      seedLoop b σ ρ (computedBase cfg) sid q cfg.count (effectiveDelay cfg) fuel
        (List.range cfg.count) 0 0 [] = some (evLoop, used) ∧
      ev = evPre ++ [Event.printLine (headerLine cfg.count)] ++ evLoop
        ++ [Event.printLine doneLine,
            Event.printLine ("  " ++ au.getD (placeholderLink (computedFrontend cfg) sid))] := by
  unfold mainRun at h
  dsimp only at h
  split at h
  · -- reuse path
    split at h
    · -- lookup succeeded
      obtain ⟨hres, evLoop, used, hseed, hev⟩ := runSubmissions_eq _ _ _ _ _ _ _ _ _ _ _ _ _ _ h
      refine ⟨_, _, _, none, evLoop, used, ?_, ?_, hseed, hev⟩
      · simp [isSubmitEv, List.countP_cons]
      · simp [isSleepEv, List.countP_cons]
    · -- lookup failed: exit code 1, not a normal exit
      exact absurd h (by simp)
  · -- create path
    split at h
    · -- create_session raised: uncaught exception, not a normal exit
      exact absurd h (by simp)
    · rename_i sid au hok
      obtain ⟨hres, evLoop, used, hseed, hev⟩ := runSubmissions_eq _ _ _ _ _ _ _ _ _ _ _ _ _ _ h
      refine ⟨_, _, _, au, evLoop, used, ?_, ?_, hseed, hev⟩
      · rw [resolveCreate_events]
        exact create_session_countP _ (fun u => rfl) (fun s => rfl) _ _ _ _
      · rw [resolveCreate_events]
        exact create_session_countP _ (fun u => rfl) (fun s => rfl) _ _ _ _

/-- C1: in any completing run of the submission loop with `count ≤ 600`,
the display names generated across all iterations (each produced by
`random_student_name` and redrawn while already in the used-names set) are
pairwise distinct. -/
theorem c1_generated_names_distinct (b : Backend) (σ : Nat → Nat) (ρ : Nat → Rat)
    (base sid q : String) (count : Nat) (delay : Rat) (fuel : Nat)
    (ev : List Event) (used : List String)
    (hcount : count ≤ 600)
    (hrun : seedLoop b σ ρ base sid q count delay fuel (List.range count) 0 0 [] =
      some (ev, used)) :
    used.Nodup :=
  seedLoop_nodup b σ ρ base sid q count delay fuel _ _ _ _ _ _ hrun List.nodup_nil

/-- Witness for C1: a concrete two-iteration run yields distinct names. -/
theorem c1_witness : w1used.Nodup :=
  c1_generated_names_distinct w1b (fun n => n) (fun _ => 1) "b" "s" "" 2 0 1
    (w1run.getD ([], [])).1 w1used (by decide) rfl

/-- C2: on the reuse path, a non-success lookup status makes the program
print the error line and terminate with exit code 1 before the submission
loop: the trace contains zero submit calls. -/
theorem c2_reuse_lookup_failure_aborts (cfg : Config) (b : Backend)
    (σ : Nat → Nat) (ρ : Nat → Rat) (fuel : Nat) (s : String)
    (hsid : cfg.sessionId = some s) (hs : s ≠ "")
    (hfail : ¬(200 ≤ b.getStatus ∧ b.getStatus < 300)) :
    ∃ ev, mainRun cfg b σ ρ fuel = some (ev, ExitResult.exitCode 1) ∧
      ev.countP isSubmitEv = 0 := by
  have ht : optStrTruthy cfg.sessionId = true := by
    rw [hsid]
    simp [optStrTruthy, strTruthy, hs]
  have hm : mainRun cfg b σ ρ fuel = some
      ([Event.getCall (sessionUrl (computedBase cfg) (cfg.sessionId.getD "")),
        Event.printLine ("Error: Session " ++ cfg.sessionId.getD "" ++ " not found ("
          ++ toString b.getStatus ++ ")")], ExitResult.exitCode 1) := by
    unfold mainRun
    dsimp only
    rw [ht]
    simp [hfail]
  exact ⟨_, hm, rfl⟩

/-- Witness for C2: a concrete reuse-path run against a 404 lookup. -/
theorem c2_witness :
    ∃ ev, mainRun w2cfg w2b (fun n => n) (fun _ => 1) 1 =
        some (ev, ExitResult.exitCode 1) ∧
      ev.countP isSubmitEv = 0 :=
  c2_reuse_lookup_failure_aborts w2cfg w2b (fun n => n) (fun _ => 1) 1 "abc"
    rfl (by decide) (by decide)

/-- C4: `random_answer` returns a non-empty string for every question
(including the empty one) and every state of the random source. -/
theorem c4_random_answer_nonempty (q : String) (i j k : Nat) (r : Rat) (l : Nat) :
    random_answer q i j k r l ≠ "" := by
  unfold random_answer
  dsimp only
  split
  · apply str_append_ne_empty
    have hmem : pyChoice REFS l ∈ REFS := pyChoice_mem REFS l (by decide)
    have hne : ∀ x ∈ REFS, x ≠ "" := by decide
    exact hne _ hmem
  · exact (base_answer_props _ (pyChoice_mem ANSWER_STARTERS i (by decide))
      _ (pyChoice_mem ANSWER_BODIES j (by decide))
      _ (pyChoice_mem ANSWER_CLOSERS k (by decide))).1

/-- C8: with an empty question `random_answer` never prepends a referential
phrase, whatever the random draws are; with a non-empty question the
referential phrase is prepended exactly when the uniform draw is below
`0.3`. -/
theorem c8_ref_gate (q : String) (i j k : Nat) (r : Rat) (l : Nat) :
    (q = "" → hasRefLead (random_answer q i j k r l) = false) ∧
    (q ≠ "" → (hasRefLead (random_answer q i j k r l) = true ↔ r < 3/10)) := by
  have hbase := (base_answer_props _ (pyChoice_mem ANSWER_STARTERS i (by decide))
      _ (pyChoice_mem ANSWER_BODIES j (by decide))
      _ (pyChoice_mem ANSWER_CLOSERS k (by decide))).2
  constructor
  · intro hq
    unfold random_answer
    dsimp only
    rw [if_neg (show ¬(q ≠ "" ∧ r < 3/10) from by simp [hq])]
    exact hbase
  · intro hq
    constructor
    · intro hlead
      by_contra hr
      unfold random_answer at hlead
      dsimp only at hlead
      rw [if_neg (show ¬(q ≠ "" ∧ r < 3/10) from by tauto)] at hlead
      rw [hbase] at hlead
      exact absurd hlead (by simp)
    · intro hr
      unfold random_answer
      dsimp only
      rw [if_pos (show q ≠ "" ∧ r < 3/10 from ⟨hq, hr⟩)]
      unfold hasRefLead
      rw [List.any_eq_true]
      refine ⟨pyChoice REFS l, pyChoice_mem REFS l (by decide), ?_⟩
      rw [str_data_append]
      exact isPrefixOf_self_append _ _

/-- Witness for C8: concrete draws on both sides of the gate. -/
theorem c8_witness :
    hasRefLead (random_answer "" 0 0 0 (1/2) 0) = false ∧
    (hasRefLead (random_answer "Q" 0 0 0 0 0) = true ↔ (0 : Rat) < 3/10) :=
  ⟨(c8_ref_gate "" 0 0 0 (1/2) 0).1 rfl,
   (c8_ref_gate "Q" 0 0 0 0 0).2 (by decide)⟩

/-- C3: in a normally completing run, submit failures never abort the loop:
all `count` submit calls are attempted whatever the outcomes, and every
failing iteration gets its failure line (FAILED for an HTTP error response,
ERROR for any other exception). -/
theorem c3_submit_failure_does_not_abort (cfg : Config) (b : Backend)
    (σ : Nat → Nat) (ρ : Nat → Rat) (fuel : Nat) (ev : List Event)
    (hrun : mainRun cfg b σ ρ fuel = some (ev, ExitResult.normal)) :
    ev.countP isSubmitEv = cfg.count ∧
    (∀ i < cfg.count, ∀ s t, b.submit i = SubmitOutcome.httpError s t →
      Event.printLine (failedLine cfg.count i s t) ∈ ev) ∧
    (∀ i < cfg.count, ∀ m, b.submit i = SubmitOutcome.exc m →
      Event.printLine (errorLine cfg.count i m) ∈ ev) := by
  obtain ⟨evPre, sid, q, au, evLoop, used, hps, hss, hseed, hev⟩ :=
    mainRun_normal cfg b σ ρ fuel ev hrun
  subst hev
  refine ⟨?_, ?_, ?_⟩
  · have hl := seedLoop_submit_count _ _ _ _ _ _ _ _ _ _ _ _ _ _ _ hseed
    rw [List.length_range] at hl
    simp [List.countP_append, hps, hl, isSubmitEv, List.countP_cons]
  · intro i hi s t hsubmit
    obtain ⟨nm, ans, hm⟩ :=
      seedLoop_line_mem _ _ _ _ _ _ _ _ _ _ _ _ _ _ _ hseed i (List.mem_range.mpr hi)
    rw [hsubmit] at hm
    have hline : iterLine cfg.count i nm ans (SubmitOutcome.httpError s t) =
        failedLine cfg.count i s t := rfl
    rw [hline] at hm
    simp [List.mem_append, hm]
  · intro i hi m hsubmit
    obtain ⟨nm, ans, hm⟩ :=
      seedLoop_line_mem _ _ _ _ _ _ _ _ _ _ _ _ _ _ _ hseed i (List.mem_range.mpr hi)
    rw [hsubmit] at hm
    have hline : iterLine cfg.count i nm ans (SubmitOutcome.exc m) =
        errorLine cfg.count i m := rfl
    rw [hline] at hm
    simp [List.mem_append, hm]

/-- Witness for C3: a concrete run where iteration 0 gets a 500 and
iteration 1 a transport error still attempts both and prints both failure
lines. -/
theorem c3_witness :
    w3ev.countP isSubmitEv = w3cfg.count ∧
    Event.printLine (failedLine w3cfg.count 0 500 "x") ∈ w3ev ∧
    Event.printLine (errorLine w3cfg.count 1 "y") ∈ w3ev :=
  ⟨(c3_submit_failure_does_not_abort w3cfg w3b (fun n => n) (fun _ => 1) 1 w3ev rfl).1,
   (c3_submit_failure_does_not_abort w3cfg w3b (fun n => n) (fun _ => 1) 1 w3ev rfl).2.1
     0 (by decide) 500 "x" rfl,
   (c3_submit_failure_does_not_abort w3cfg w3b (fun n => n) (fun _ => 1) 1 w3ev rfl).2.2
     1 (by decide) "y" rfl⟩

/-- C7: if `noDelay` is set the run never sleeps, whatever `delay` is
configured as; and when the effective delay is nonzero, a normally
completing run sleeps exactly `count - 1` times — once between each pair of
consecutive iterations and never after the final one. -/
theorem c7_delay_semantics (cfg : Config) (b : Backend) (σ : Nat → Nat)
    (ρ : Nat → Rat) (fuel : Nat) (ev : List Event)
    (hrun : mainRun cfg b σ ρ fuel = some (ev, ExitResult.normal)) :
    (cfg.noDelay = true → ev.countP isSleepEv = 0) ∧
    (effectiveDelay cfg ≠ 0 → ev.countP isSleepEv = cfg.count - 1) := by
  obtain ⟨evPre, sid, q, au, evLoop, used, hps, hss, hseed, hev⟩ :=
    mainRun_normal cfg b σ ρ fuel ev hrun
  subst hev
  constructor
  · intro hnd
    have hz : effectiveDelay cfg = 0 := by simp [effectiveDelay, hnd]
    rw [hz] at hseed
    have hl := seedLoop_no_sleep _ _ _ _ _ _ _ _ _ _ _ _ _ _ hseed
    simp [List.countP_append, hss, hl, isSleepEv, List.countP_cons]
  · intro hd
    have hl := seedLoop_sleep_count _ _ _ _ _ _ _ _ _ hd _ _ _ _ _ _ hseed
    rw [countP_range_not_last] at hl
    simp [List.countP_append, hss, hl, isSleepEv, List.countP_cons]

/-- Witness for C7: with `noDelay` a concrete run never sleeps even though
`delay = 5`; with `delay = 1` a two-iteration run sleeps exactly once. -/
theorem c7_witness :
    w7aev.countP isSleepEv = 0 ∧ w7bev.countP isSleepEv = w7bcfg.count - 1 :=
  ⟨(c7_delay_semantics w7acfg w7back (fun n => n) (fun _ => 1) 1 w7aev rfl).1 rfl,
   (c7_delay_semantics w7bcfg w7back (fun n => n) (fun _ => 1) 1 w7bev rfl).2 (by decide)⟩

/-- C9 (amended): after all iterations of a normally completing run the
final summary (the Done line plus a link line) is printed regardless of how
many submissions failed; the total attempted count is reported in the
pre-loop header line rather than in the summary. -/
theorem c9_summary_always_printed (cfg : Config) (b : Backend) (σ : Nat → Nat)
    (ρ : Nat → Rat) (fuel : Nat) (ev : List Event)
    (hrun : mainRun cfg b σ ρ fuel = some (ev, ExitResult.normal)) :
    Event.printLine doneLine ∈ ev ∧
    Event.printLine (headerLine cfg.count) ∈ ev := by
  obtain ⟨evPre, sid, q, au, evLoop, used, hps, hss, hseed, hev⟩ :=
    mainRun_normal cfg b σ ρ fuel ev hrun
  subst hev
  constructor <;> simp [List.mem_append]

/-- Witness for C9 (amended): a run whose submissions all fail still prints
the Done line, and the header line carries the count. -/
theorem c9_witness :
    Event.printLine doneLine ∈ w9ev ∧ Event.printLine (headerLine w9cfg.count) ∈ w9ev :=
  c9_summary_always_printed w9cfg w9b (fun n => n) (fun _ => 1) 1 w9ev rfl

/-- Counterexample for C9 as stated: a concrete completing run with
`count = 7` and one failed submission ends with a summary made of exactly
the Done line and the placeholder-link line, and neither contains the
character `7` — the decimal representation of the attempted total — so the
summary does not report the total number of attempted items. -/
theorem c9_counterexample :
    x9run = some (x9ev, ExitResult.normal) ∧
    Event.printLine (failedLine 7 3 500 "boom") ∈ x9ev ∧
    x9ev.reverse.take 2 =
      [Event.printLine "  http://x/session/s/admin?token=<your-admin-token>",
       Event.printLine doneLine] ∧
    ¬ ('7' ∈ "  http://x/session/s/admin?token=<your-admin-token>".data) ∧
    ¬ ('7' ∈ doneLine.data) := by
  decide

/-- C5: on the create path, when the create response carries a session id
and a truthy admin token, a normally completing run prints the admin link
built exactly as frontend-url/session/session-id/admin?token=admin-token. -/
theorem c5_admin_link_format (cfg : Config) (b : Backend) (σ : Nat → Nat)
    (ρ : Nat → Rat) (fuel : Nat) (ev : List Event) (sid tok : String)
    (hsid : optStrTruthy cfg.sessionId = false)
    (h1 : b.createData.session_id = some sid)
    (h3 : b.createData.admin_token = some tok) (htok : tok ≠ "")
    (hrun : mainRun cfg b σ ρ fuel = some (ev, ExitResult.normal)) :
    Event.printLine ("  " ++ adminLink (computedFrontend cfg) sid tok) ∈ ev := by
  unfold mainRun at hrun
  dsimp only at hrun
  rw [hsid] at hrun
  rw [if_neg (show ¬(false = true) from by simp)] at hrun
  split at hrun
  · exact absurd hrun (by simp)
  · rename_i sid' au hok
    have hrc : resolveCreate cfg b = ((resolveCreate cfg b).1, Except.ok (sid', au)) := by
      rw [← hok]
    obtain ⟨hsid', hau⟩ := resolveCreate_ok cfg b sid' au _ hrc
    rw [h1] at hsid'
    obtain rfl : sid = sid' := Option.some.inj hsid'
    rw [h3] at hau
    have hau2 : au = some (adminLink (computedFrontend cfg) sid tok) := by
      rw [hau]
      rw [if_pos]
      · rfl
      · simp [strTruthy, htok]
    subst hau2
    obtain ⟨hres, evLoop, used, hseed, hev⟩ :=
      runSubmissions_eq _ _ _ _ _ _ _ _ _ _ _ _ _ _ hrun
    subst hev
    simp [List.mem_append, Option.getD]

/-- Witness for C5: a concrete create-path run prints the formatted admin
link. -/
theorem c5_witness :
    Event.printLine ("  " ++ adminLink (computedFrontend w5cfg) "abc" "t") ∈ w5ev :=
  c5_admin_link_format w5cfg w5b (fun n => n) (fun _ => 1) 1 w5ev "abc" "t"
    rfl rfl rfl (by decide) rfl

/-- C6: evaluating the embedded program at a create response that lacks the
`admin_token` key: `create_session` raises `KeyError` while formatting the
admin link (the script reads `data['admin_token']` directly in the f-string
on line 127, although `main` itself uses `data.get("admin_token", "")`), so
the run aborts with an uncaught exception before any submission instead of
completing with the templated placeholder link. -/
theorem c6_missing_admin_token_crashes :
    mainRun c6cfg c6b (fun n => n) (fun _ => 1) 1 =
      some ([Event.createCall "http://x/api/sessions",
             Event.printLine "Created session: abc",
             Event.printLine "  Student URL: http://x/j/abc"],
            ExitResult.uncaught (PyExc.keyError "admin_token")) := by
  decide

/-- Counterexample for C10 as stated: `x10a` and `x10b` have identical base
URLs and frontend URLs that differ only by a trailing slash (the empty
string versus a lone slash), yet the computed frontend URLs — and with them
the printed admin links — differ, because the empty string is falsy and
falls back to the base URL while the lone slash is truthy and strips to the
empty string. -/
theorem c10_counterexample :
    x10a.baseUrl = x10b.baseUrl ∧
    pyRstripSlash (x10a.frontendUrl.getD "") = pyRstripSlash (x10b.frontendUrl.getD "") ∧
    computedFrontend x10a ≠ computedFrontend x10b ∧
    adminLink (computedFrontend x10a) "s" "t" ≠ adminLink (computedFrontend x10b) "s" "t" := by
  decide

/-- C10 (amended): trailing slashes are stripped from the configured URLs
before any URL is built, so two configurations whose base URLs agree up to
trailing slashes, and whose frontend URLs agree up to trailing slashes and
have the same truthiness, produce identical request URLs and identical
admin links. -/
theorem c10_trailing_slash_normalization (cfg1 cfg2 : Config)
    (hb : pyRstripSlash cfg1.baseUrl = pyRstripSlash cfg2.baseUrl)
    (hf : match cfg1.frontendUrl, cfg2.frontendUrl with
      | none, none => True
      | some a, some c => pyRstripSlash a = pyRstripSlash c ∧ (a = "" ↔ c = "")
      | _, _ => False) :
    computedBase cfg1 = computedBase cfg2 ∧
    computedFrontend cfg1 = computedFrontend cfg2 ∧
    sessionsUrl (computedBase cfg1) = sessionsUrl (computedBase cfg2) ∧
    (∀ sid, sessionUrl (computedBase cfg1) sid = sessionUrl (computedBase cfg2) sid) ∧
    (∀ sid, responsesUrl (computedBase cfg1) sid = responsesUrl (computedBase cfg2) sid) ∧
    (∀ sid tok, adminLink (computedFrontend cfg1) sid tok =
      adminLink (computedFrontend cfg2) sid tok) := by
  have hbase : computedBase cfg1 = computedBase cfg2 := hb
  have hfront : computedFrontend cfg1 = computedFrontend cfg2 := by
    unfold computedFrontend
    cases h1 : cfg1.frontendUrl with
    | none =>
      cases h2 : cfg2.frontendUrl with
      | none => simp [optStrTruthy, hbase]
      | some c =>
        rw [h1, h2] at hf
        exact hf.elim
    | some a =>
      cases h2 : cfg2.frontendUrl with
      | none =>
        rw [h1, h2] at hf
        exact hf.elim
      | some c =>
        rw [h1, h2] at hf
        obtain ⟨hstrip, hiff⟩ := hf
        by_cases ha : a = ""
        · have hc : c = "" := hiff.mp ha
          simp [optStrTruthy, strTruthy, ha, hc, hbase]
        · have hc : c ≠ "" := fun hcc => ha (hiff.mpr hcc)
          simp [optStrTruthy, strTruthy, ha, hc, hstrip]
  refine ⟨hbase, hfront, ?_, ?_, ?_, ?_⟩ <;>
    simp [sessionsUrl, sessionUrl, responsesUrl, adminLink, hbase, hfront]

/-- Witness for C10 (amended): concrete URLs differing only by trailing
slashes compute the same frontend URL. -/
theorem c10_witness :
    computedFrontend { baseUrl := "http://x/", frontendUrl := some "http://f/" } =
      computedFrontend { baseUrl := "http://x", frontendUrl := some "http://f" } :=
  (c10_trailing_slash_normalization
    { baseUrl := "http://x/", frontendUrl := some "http://f/" }
    { baseUrl := "http://x", frontendUrl := some "http://f" }
    (by decide) (by decide)).2.1
